import Mathlib

/-
Shallow embedding of the two programs in this repository:
  opengl_triangle/src/main.cpp
  opengl_rectangle_using_indexing/src/main.cpp
The two files differ only in window title, vertex data, the presence of an
element (index) buffer, and the draw call.  Each run of `main` is modelled as
a trace of the library calls it performs (GLFW and GL calls, console output)
together with the process exit status.  Outcomes of external library calls
(window creation, GLAD loading, shader compile and link status queries, the
implementation-supplied info logs, the per-iteration Escape-key query and the
per-iteration window-close request delivered by event polling) are inputs,
collected in an `Env`.  The render loop is executed with explicit fuel, since
the C++ `while` loop need not terminate.
-/

namespace Renderer

/-- Shader stage kinds appearing in the source (GL_VERTEX_SHADER / GL_FRAGMENT_SHADER). -/
inductive ShaderKind
  | vertex
  | fragment
  deriving DecidableEq

/-- Buffer binding targets used by the source (GL_ARRAY_BUFFER / GL_ELEMENT_ARRAY_BUFFER). -/
inductive BufTarget
  | array
  | element
  deriving DecidableEq

/-- Names of the buffer objects created by the source (`VBO`, and `EBO` in the
rectangle variant). -/
inductive BufName
  | vbo
  | ebo
  deriving DecidableEq

/-- One observable library call made by `main`.  Float arguments are modelled
as rationals (all float literals in the source are exactly representable).
`destroyWindow` is included so that its absence from every trace is statable:
the source never calls glfwDestroyWindow. -/
inductive Event
  | glfwInitEv
  | windowHint (target value : Nat)
  | createWindow (w h : Nat) (title : String) (ok : Bool)
  | printOut (s : String)
  | glfwTerminateEv
  | destroyWindow
  | makeContextCurrent
  | setFramebufferSizeCallback
  | gladLoad (ok : Bool)
  | createShader (k : ShaderKind)
  | shaderSource (k : ShaderKind) (src : String)
  | compileShader (k : ShaderKind)
  | getShaderiv (k : ShaderKind) (status : Bool)
  | getShaderInfoLog (k : ShaderKind) (bufSize : Nat)
  | createProgram
  | attachShader (k : ShaderKind)
  | linkProgram
  | getProgramiv (status : Bool)
  | getProgramInfoLog (bufSize : Nat)
  | deleteShader (k : ShaderKind)
  | genVertexArrays
  | genBuffers (b : BufName)
  | bindVertexArray (bound : Bool)
  | bindBuffer (t : BufTarget) (bound : Bool)
  | bufferDataF (t : BufTarget) (data : List ℚ)
  | bufferDataU (t : BufTarget) (data : List Nat)
  | vertexAttribPointer (idx size strideBytes : Nat)
  | enableVertexAttribArray (idx : Nat)
  | getKey (key : Nat) (pressed : Bool)
  | setWindowShouldClose
  | clearColor (r g b a : ℚ)
  | clear
  | useProgram
  | drawArrays (first count : Nat)
  | drawElements (count : Nat)
  | swapBuffers
  | pollEvents
  | deleteVertexArrays
  | deleteBuffers (b : BufName)
  | deleteProgram
  deriving DecidableEq

/-- Outcomes of all external library interactions during one run. -/
structure Env where
  glfwInitOk : Bool
  windowOk : Bool
  gladOk : Bool
  vertexCompileOk : Bool
  fragmentCompileOk : Bool
  linkOk : Bool
  vertexLog : String
  fragmentLog : String
  linkLog : String
  escape : Nat → Bool
  closeRequest : Nat → Bool

/-- Which of the two near-identical programs is being run. -/
inductive Variant
  | triangle
  | rectangle
  deriving DecidableEq

-- Window settings (main.cpp, both variants)
def SCR_WIDTH : Nat := 800
def SCR_HEIGHT : Nat := 600

-- GLFW header constants used by the source
def GLFW_CONTEXT_VERSION_MAJOR : Nat := 0x00022002
def GLFW_CONTEXT_VERSION_MINOR : Nat := 0x00022003
def GLFW_OPENGL_PROFILE : Nat := 0x00022008
def GLFW_OPENGL_CORE_PROFILE : Nat := 0x00032001
def GLFW_KEY_ESCAPE : Nat := 256

def vertexShaderSource : String :=
  "\n#version 330 core\nlayout (location = 0) in vec3 aPos;\n\nvoid main()\n\x7b\n    // OpenGL clip space is [-1, +1]\n    gl_Position = vec4(aPos, 1.0);\n\x7d\n"

def fragmentShaderSource : String :=
  "\n#version 330 core\nout vec4 FragColor;\n\nvoid main()\n\x7b\n    FragColor = vec4(1.0, 0.5, 0.6, 1.0);\n\x7d\n"

def windowTitle : Variant → String
  | .triangle => "OpenGL Beginner Renderer : My First OpenGL TRIANGLE"
  | .rectangle => "OpenGL Beginner Renderer : My OpenGL RECTANGLE using indexed vertices"

/-- The CPU-side vertex array (x, y, z per vertex), from section 5 of each file. -/
def vertices : Variant → List ℚ
  | .triangle => [-(1/2), -(1/2), 0, 1/2, -(1/2), 0, 0, 1/2, 0]
  | .rectangle => [1/2, 1/2, 0, 1/2, -(1/2), 0, -(1/2), -(1/2), 0, -(1/2), 1/2, 0]

/-- The index array of the rectangle variant. -/
def indices : List Nat := [0, 1, 3, 1, 2, 3]

/-- Size of the `char infoLog[512]` buffer, and the bufSize argument passed at
every info-log retrieval site. -/
def infoLogBufSize : Nat := 512

/-- Characters actually stored by glGetShaderInfoLog / glGetProgramInfoLog:
at most `bufSize - 1` characters of the implementation's log, plus a null
terminator. -/
def writtenLog (bufSize : Nat) (log : String) : String :=
  (log.toList.take (bufSize - 1)).asString

/-- Bytes the info-log retrieval writes into the caller's buffer (the
truncated log plus the null terminator). -/
def bytesWritten (bufSize : Nat) (log : String) : Nat :=
  min log.length (bufSize - 1) + 1

def vertexErrMsg (env : Env) : String :=
  "Vertex Shader Error:\n" ++ writtenLog infoLogBufSize env.vertexLog ++ "\n"

def fragmentErrMsg (env : Env) : String :=
  "Fragment Shader Error:\n" ++ writtenLog infoLogBufSize env.fragmentLog ++ "\n"

def linkErrMsg (env : Env) : String :=
  "Shader Link Error:\n" ++ writtenLog infoLogBufSize env.linkLog ++ "\n"

/-- Section 4 of main.cpp: vertex shader creation, compilation, status query,
and conditional diagnostic. -/
def vertexBlock (env : Env) : List Event :=
  [.createShader .vertex, .shaderSource .vertex vertexShaderSource,
   .compileShader .vertex, .getShaderiv .vertex env.vertexCompileOk]
  ++ (if env.vertexCompileOk then []
      else [.getShaderInfoLog .vertex infoLogBufSize, .printOut (vertexErrMsg env)])

/-- Section 4 of main.cpp: fragment shader creation, compilation, status query,
and conditional diagnostic. -/
def fragmentBlock (env : Env) : List Event :=
  [.createShader .fragment, .shaderSource .fragment fragmentShaderSource,
   .compileShader .fragment, .getShaderiv .fragment env.fragmentCompileOk]
  ++ (if env.fragmentCompileOk then []
      else [.getShaderInfoLog .fragment infoLogBufSize, .printOut (fragmentErrMsg env)])

/-- Section 4 of main.cpp: program creation, attach, link, status query, and
conditional diagnostic. -/
def linkBlock (env : Env) : List Event :=
  [.createProgram, .attachShader .vertex, .attachShader .fragment,
   .linkProgram, .getProgramiv env.linkOk]
  ++ (if env.linkOk then []
      else [.getProgramInfoLog infoLogBufSize, .printOut (linkErrMsg env)])

/-- All of section 4 of main.cpp (identical in both variants). -/
def shaderPhase (env : Env) : List Event :=
  vertexBlock env ++ fragmentBlock env ++ linkBlock env
  ++ [.deleteShader .vertex, .deleteShader .fragment]

/-- Section 6 of main.cpp: VAO/VBO (and, in the rectangle variant, EBO)
generation, binding, upload, attribute setup, unbinding.  Stride is
3 * sizeof(float) = 12 bytes. -/
def bufferSetupEvents : Variant → List Event
  | .triangle =>
    [.genVertexArrays, .genBuffers .vbo,
     .bindVertexArray true,
     .bindBuffer .array true,
     .bufferDataF .array (vertices .triangle),
     .vertexAttribPointer 0 3 12,
     .enableVertexAttribArray 0,
     .bindBuffer .array false,
     .bindVertexArray false]
  | .rectangle =>
    [.genVertexArrays, .genBuffers .vbo, .genBuffers .ebo,
     .bindVertexArray true,
     .bindBuffer .array true,
     .bufferDataF .array (vertices .rectangle),
     .bindBuffer .element true,
     .bufferDataU .element indices,
     .vertexAttribPointer 0 3 12,
     .enableVertexAttribArray 0,
     .bindBuffer .array false,
     .bindVertexArray false]

/-- processInput: query Escape; if pressed, request close. -/
def processInputEvents (env : Env) (i : Nat) : List Event :=
  [.getKey GLFW_KEY_ESCAPE (env.escape i)]
  ++ (if env.escape i then [.setWindowShouldClose] else [])

/-- The one draw call per frame: glDrawArrays(GL_TRIANGLES, 0, 3) in the
triangle variant, glDrawElements(GL_TRIANGLES, 6, GL_UNSIGNED_INT, 0) in the
rectangle variant. -/
def drawEvent : Variant → Event
  | .triangle => .drawArrays 0 3
  | .rectangle => .drawElements 6

/-- The frame-rendering part of a loop iteration, after input processing:
clear to the fixed background color, use the program, bind the VAO, draw,
swap, poll.  Depends on nothing but the variant. -/
def frameEvents (v : Variant) : List Event :=
  [.clearColor (1/10) (1/10) (3/20) 1, .clear, .useProgram,
   .bindVertexArray true, drawEvent v, .swapBuffers, .pollEvents]

/-- One full iteration of the render loop (section 7 of main.cpp). -/
def iterEvents (v : Variant) (env : Env) (i : Nat) : List Event :=
  processInputEvents env i ++ frameEvents v

/-- Whether iteration `i` sets the window-should-close flag: Escape was
observed by processInput, or a window-close request was delivered by
glfwPollEvents. -/
def trigger (env : Env) (i : Nat) : Bool :=
  env.escape i || env.closeRequest i

/-- The should-close flag after iteration `i`, given its value `c` before. -/
def stepClose (env : Env) (i : Nat) (c : Bool) : Bool :=
  c || trigger env i

/-- The while loop of section 7, with fuel: `i` is the iteration counter and
`close` the current should-close flag.  Returns the concatenated iteration
traces, or `none` if fuel runs out before the flag is observed set. -/
def runLoop (v : Variant) (env : Env) : Nat → Nat → Bool → Option (List Event)
  | _, _, true => some []
  | 0, _, false => none
  | fuel + 1, i, false =>
    (runLoop v env fuel (i + 1) (stepClose env i false)).map
      (fun rest => iterEvents v env i ++ rest)

/-- Section 8 of main.cpp: cleanup after the loop. -/
def cleanupEvents : Variant → List Event
  | .triangle =>
    [.deleteVertexArrays, .deleteBuffers .vbo, .deleteProgram, .glfwTerminateEv]
  | .rectangle =>
    [.deleteVertexArrays, .deleteBuffers .vbo, .deleteBuffers .ebo,
     .deleteProgram, .glfwTerminateEv]

/-- Sections 1 and 2 of main.cpp up to and including the glfwCreateWindow
call.  The return value of glfwInit is discarded by the source, so the event
records no outcome and the hints follow unconditionally. -/
def preWindowEvents (v : Variant) (env : Env) : List Event :=
  [.glfwInitEv,
   .windowHint GLFW_CONTEXT_VERSION_MAJOR 3,
   .windowHint GLFW_CONTEXT_VERSION_MINOR 3,
   .windowHint GLFW_OPENGL_PROFILE GLFW_OPENGL_CORE_PROFILE,
   .createWindow SCR_WIDTH SCR_HEIGHT (windowTitle v) env.windowOk]

/-- The whole of `main`: the trace of library calls and the exit status, or
`none` when the render loop exhausts its fuel (the C++ loop would still be
running). -/
def runMain (v : Variant) (env : Env) (fuel : Nat) : Option (List Event × Int) :=
  let pre := preWindowEvents v env
  if env.windowOk = false then
    some (pre ++ [.printOut "Failed to create GLFW window\n", .glfwTerminateEv], -1)
  else
    let pre2 := pre ++ [.makeContextCurrent, .setFramebufferSizeCallback, .gladLoad env.gladOk]
    if env.gladOk = false then
      some (pre2 ++ [.printOut "Failed to initialize GLAD\n"], -1)
    else
      match runLoop v env fuel 0 false with
      | none => none
      | some loopEvs =>
        some (pre2 ++ shaderPhase env ++ bufferSetupEvents v ++ loopEvs
              ++ cleanupEvents v, 0)

/-- Recognizes console-output events (diagnostics). -/
def isPrint : Event → Bool
  | .printOut _ => true
  | _ => false

/-- Recognizes draw calls. -/
def isDraw : Event → Bool
  | .drawArrays _ _ => true
  | .drawElements _ => true
  | _ => false

/-- GL state visible to the resize callback: the viewport rectangle and the
contents of the vertex and index buffers. -/
structure GLState where
  viewport : Int × Int × Int × Int
  arrayBufferData : List ℚ
  elementBufferData : List Nat
  deriving DecidableEq

def glViewport (s : GLState) (x y w h : Int) : GLState :=
  { s with viewport := (x, y, w, h) }

/-- The resize callback of both variants: glViewport(0, 0, width, height). -/
def framebuffer_size_callback (s : GLState) (width height : Int) : GLState :=
  glViewport s 0 0 width height

/-- The 2D position of vertex `i` (x and y components of the vertex array). -/
def vertex2D (v : Variant) (i : Nat) : ℚ × ℚ :=
  ((vertices v).getD (3 * i) 0, (vertices v).getD (3 * i + 1) 0)

/-- The `k`-th triangle described by the rectangle variant's index array. -/
def rectTri (k : Nat) : (ℚ × ℚ) × (ℚ × ℚ) × (ℚ × ℚ) :=
  (vertex2D .rectangle (indices.getD (3 * k) 0),
   vertex2D .rectangle (indices.getD (3 * k + 1) 0),
   vertex2D .rectangle (indices.getD (3 * k + 2) 0))

/-- Closed-triangle membership: `p` is a convex combination of `a`, `b`, `c`. -/
def inTriangle (a b c p : ℚ × ℚ) : Prop :=
  ∃ al be ga : ℚ, 0 ≤ al ∧ 0 ≤ be ∧ 0 ≤ ga ∧ al + be + ga = 1 ∧
    p.1 = al * a.1 + be * b.1 + ga * c.1 ∧
    p.2 = al * a.2 + be * b.2 + ga * c.2

/-- Open-triangle (interior) membership: all barycentric weights positive. -/
def inTriangleInterior (a b c p : ℚ × ℚ) : Prop :=
  ∃ al be ga : ℚ, 0 < al ∧ 0 < be ∧ 0 < ga ∧ al + be + ga = 1 ∧
    p.1 = al * a.1 + be * b.1 + ga * c.1 ∧
    p.2 = al * a.2 + be * b.2 + ga * c.2

/-- The quad spanned by the rectangle's four corners. -/
def inQuad (p : ℚ × ℚ) : Prop :=
  -(1/2) ≤ p.1 ∧ p.1 ≤ 1/2 ∧ -(1/2) ≤ p.2 ∧ p.2 ≤ 1/2

/-- A run in which everything succeeds and Escape is pressed from the first
frame: the loop runs exactly one iteration. -/
def env0 : Env :=
  { glfwInitOk := true, windowOk := true, gladOk := true,
    vertexCompileOk := true, fragmentCompileOk := true, linkOk := true,
    vertexLog := "", fragmentLog := "", linkLog := "",
    escape := fun _ => true, closeRequest := fun _ => false }

/-- A run in which window creation fails. -/
def envWinFail : Env :=
  { env0 with windowOk := false }

/-- A run in which GLAD loading fails. -/
def envGladFail : Env :=
  { env0 with gladOk := false }

/-- A run in which every shader step fails (with fixed logs) but the loop
still runs and exits on Escape. -/
def envBadShaders : Env :=
  { env0 with vertexCompileOk := false, fragmentCompileOk := false, linkOk := false,
              vertexLog := "verr", fragmentLog := "ferr", linkLog := "lerr" }

/-- The trace of a successful concrete run (for witnesses). -/
def mainTrace (v : Variant) (env : Env) (fuel : Nat) : List Event :=
  ((runMain v env fuel).getD ([], 0)).1

theorem triA_char (p : ℚ × ℚ) :
    inTriangle (1/2, 1/2) (1/2, -(1/2)) (-(1/2), 1/2) p ↔
      0 ≤ p.1 + p.2 ∧ p.1 ≤ 1/2 ∧ p.2 ≤ 1/2 := by
  constructor
  · rintro ⟨al, be, ga, h1, h2, h3, h4, hx, hy⟩
    simp only at hx hy
    refine ⟨?_, ?_, ?_⟩ <;> nlinarith [h1, h2, h3, h4, hx, hy]
  · rintro ⟨h1, h2, h3⟩
    exact ⟨p.1 + p.2, 1/2 - p.2, 1/2 - p.1, by linarith, by linarith, by linarith,
      by ring, by simp; ring, by simp; ring⟩

theorem triB_char (p : ℚ × ℚ) :
    inTriangle (1/2, -(1/2)) (-(1/2), -(1/2)) (-(1/2), 1/2) p ↔
      p.1 + p.2 ≤ 0 ∧ -(1/2) ≤ p.1 ∧ -(1/2) ≤ p.2 := by
  constructor
  · rintro ⟨al, be, ga, h1, h2, h3, h4, hx, hy⟩
    simp only at hx hy
    refine ⟨?_, ?_, ?_⟩ <;> nlinarith [h1, h2, h3, h4, hx, hy]
  · rintro ⟨h1, h2, h3⟩
    exact ⟨1/2 + p.1, -(p.1 + p.2), 1/2 + p.2, by linarith, by linarith, by linarith,
      by ring, by simp; ring, by simp; ring⟩

theorem triA_interior_sum (p : ℚ × ℚ)
    (h : inTriangleInterior (1/2, 1/2) (1/2, -(1/2)) (-(1/2), 1/2) p) :
    0 < p.1 + p.2 := by
  obtain ⟨al, be, ga, h1, h2, h3, h4, hx, hy⟩ := h
  simp only at hx hy
  nlinarith [h1, h2, h3, h4, hx, hy]

theorem triB_interior_sum (p : ℚ × ℚ)
    (h : inTriangleInterior (1/2, -(1/2)) (-(1/2), -(1/2)) (-(1/2), 1/2) p) :
    p.1 + p.2 < 0 := by
  obtain ⟨al, be, ga, h1, h2, h3, h4, hx, hy⟩ := h
  simp only at hx hy
  nlinarith [h1, h2, h3, h4, hx, hy]

theorem rectTri_zero : rectTri 0 = ((1/2, 1/2), (1/2, -(1/2)), (-(1/2), 1/2)) := by
  norm_num [rectTri, vertex2D, vertices, indices]

theorem rectTri_one : rectTri 1 = ((1/2, -(1/2)), (-(1/2), -(1/2)), (-(1/2), 1/2)) := by
  norm_num [rectTri, vertex2D, vertices, indices]

theorem flatten_iter_range_succ (v : Variant) (env : Env) (i k : Nat) :
    (List.map (fun j => iterEvents v env (i + j)) (List.range (k + 1))).flatten
      = iterEvents v env i
        ++ (List.map (fun j => iterEvents v env (i + 1 + j)) (List.range k)).flatten := by
  rw [List.range_succ_eq_map]
  simp only [List.map_cons, List.map_map, List.flatten_cons, Nat.add_zero]
  congr 1
  apply congrArg List.flatten
  apply List.map_congr_left
  intro j _
  simp only [Function.comp_apply]
  congr 1
  omega

theorem runLoop_eq_of_trigger (v : Variant) (env : Env) :
    ∀ (k i fuel : Nat), (∀ j, j < k → trigger env (i + j) = false) →
      trigger env (i + k) = true → k + 1 ≤ fuel →
      runLoop v env fuel i false =
        some (((List.range (k + 1)).map (fun j => iterEvents v env (i + j))).flatten) := by
  intro k
  induction k with
  | zero =>
    intro i fuel _ htrig hfuel
    obtain ⟨f, rfl⟩ : ∃ f, fuel = f + 1 := ⟨fuel - 1, by omega⟩
    simp only [runLoop, stepClose, Bool.false_or]
    rw [show trigger env i = true from by simpa using htrig]
    simp [runLoop, List.range_succ]
  | succ k ih =>
    intro i fuel hprev htrig hfuel
    obtain ⟨f, rfl⟩ : ∃ f, fuel = f + 1 := ⟨fuel - 1, by omega⟩
    have h0 : trigger env i = false := by simpa using hprev 0 (by omega)
    have hrec := ih (i + 1) f
      (fun j hj => by rw [show i + 1 + j = i + (j + 1) from by omega]; exact hprev (j + 1) (by omega))
      (by rw [show i + 1 + k = i + (k + 1) from by omega]; exact htrig)
      (by omega)
    simp only [runLoop, stepClose, Bool.false_or, h0]
    rw [hrec, Option.map_some']
    rw [flatten_iter_range_succ v env i (k + 1)]

theorem runLoop_some_trigger (v : Variant) (env : Env) :
    ∀ (fuel i : Nat) (tr : List Event), runLoop v env fuel i false = some tr →
      ∃ j, i ≤ j ∧ trigger env j = true := by
  intro fuel
  induction fuel with
  | zero => intro i tr h; simp [runLoop] at h
  | succ f ih =>
    intro i tr h
    by_cases hc : trigger env i = true
    · exact ⟨i, le_refl i, hc⟩
    · rw [Bool.not_eq_true] at hc
      simp only [runLoop, stepClose, Bool.false_or, hc, Option.map_eq_some'] at h
      obtain ⟨rest, hrest, _⟩ := h
      obtain ⟨j, hj1, hj2⟩ := ih (i + 1) rest hrest
      exact ⟨j, by omega, hj2⟩

theorem runMain_ok_shape (v : Variant) (env : Env) (fuel : Nat) (l : List Event)
    (hW : env.windowOk = true) (hG : env.gladOk = true)
    (hl : runLoop v env fuel 0 false = some l) :
    runMain v env fuel =
      some (preWindowEvents v env
            ++ [.makeContextCurrent, .setFramebufferSizeCallback, .gladLoad env.gladOk]
            ++ shaderPhase env ++ bufferSetupEvents v ++ l ++ cleanupEvents v, 0) := by
  simp [runMain, hW, hG, hl]

theorem runLoop_zero_false_clear (v : Variant) (env : Env) (fuel : Nat) (l : List Event)
    (h : runLoop v env fuel 0 false = some l) : Event.clear ∈ l := by
  cases fuel with
  | zero => simp [runLoop] at h
  | succ f =>
    simp only [runLoop, Option.map_eq_some'] at h
    obtain ⟨rest, _, rfl⟩ := h
    simp [iterEvents, frameEvents, processInputEvents]

theorem run_ok_exit (v : Variant) (env : Env) (fuel : Nat) (tr : List Event) (c : Int)
    (hrun : runMain v env fuel = some (tr, c))
    (hW : env.windowOk = true) (hG : env.gladOk = true) :
    Event.clear ∈ tr ∧ c = 0 := by
  rcases hl : runLoop v env fuel 0 false with _ | l
  · rw [runMain] at hrun
    simp [hW, hG, hl] at hrun
  · have hsh := runMain_ok_shape v env fuel l hW hG hl
    rw [hsh] at hrun
    simp only [Option.some.injEq, Prod.mk.injEq] at hrun
    obtain ⟨h1, h2⟩ := hrun
    subst h1; subst h2
    constructor
    · have hc := runLoop_zero_false_clear v env fuel l hl
      simp [List.mem_append, hc]
    · rfl

theorem runLoop_glfwInit_irrel (v : Variant) (env : Env) (b : Bool) :
    ∀ (fuel i : Nat) (c : Bool),
      runLoop v { env with glfwInitOk := b } fuel i c = runLoop v env fuel i c := by
  intro fuel
  induction fuel with
  | zero => intro i c; cases c <;> rfl
  | succ f ih =>
    intro i c
    cases c
    · simp only [runLoop]
      rw [show stepClose { env with glfwInitOk := b } i false = stepClose env i false from rfl]
      rw [ih]
      rfl
    · rfl

/-- C1: for each of the three shader-build steps (vertex compile, fragment
compile, program link), a diagnostic message is printed if and only if the
corresponding status query reports failure (the print count of each step's
block is 1 on failure and 0 on success, and the failure diagnostic is in the
trace); in every case execution continues past the shader phase to the render
loop (any completed run with a created window and loaded GPU functions
reaches the loop's clear call and exits 0); and when all three statuses
succeed, the shader phase prints no diagnostic at all. -/
theorem shader_diagnostics_iff_failure (env : Env) :
    ((vertexBlock env).countP isPrint = if env.vertexCompileOk then 0 else 1)
    ∧ ((fragmentBlock env).countP isPrint = if env.fragmentCompileOk then 0 else 1)
    ∧ ((linkBlock env).countP isPrint = if env.linkOk then 0 else 1)
    ∧ (env.vertexCompileOk = false → Event.printOut (vertexErrMsg env) ∈ shaderPhase env)
    ∧ (env.fragmentCompileOk = false → Event.printOut (fragmentErrMsg env) ∈ shaderPhase env)
    ∧ (env.linkOk = false → Event.printOut (linkErrMsg env) ∈ shaderPhase env)
    ∧ (env.vertexCompileOk = true → env.fragmentCompileOk = true → env.linkOk = true →
        (shaderPhase env).countP isPrint = 0)
    ∧ (∀ (v : Variant) (fuel : Nat) (tr : List Event) (c : Int),
        runMain v env fuel = some (tr, c) → env.windowOk = true → env.gladOk = true →
        Event.clear ∈ tr ∧ c = 0) := by
  refine ⟨?_, ?_, ?_, ?_, ?_, ?_, ?_, ?_⟩
  · cases h : env.vertexCompileOk <;> simp [vertexBlock, isPrint, h]
  · cases h : env.fragmentCompileOk <;> simp [fragmentBlock, isPrint, h]
  · cases h : env.linkOk <;> simp [linkBlock, isPrint, h]
  · intro h; simp [shaderPhase, vertexBlock, h]
  · intro h; simp [shaderPhase, fragmentBlock, h]
  · intro h; simp [shaderPhase, linkBlock, h]
  · intro h1 h2 h3
    simp [shaderPhase, vertexBlock, fragmentBlock, linkBlock, isPrint, h1, h2, h3]
  · intro v fuel tr c hrun hW hG
    exact run_ok_exit v env fuel tr c hrun hW hG

theorem shader_diagnostics_iff_failure_witness :
    (vertexBlock envBadShaders).countP isPrint = 1
    ∧ Event.printOut (vertexErrMsg envBadShaders) ∈ shaderPhase envBadShaders
    ∧ (shaderPhase env0).countP isPrint = 0
    ∧ (Event.clear ∈ mainTrace .triangle env0 2 ∧ (0 : Int) = 0) :=
  ⟨(shader_diagnostics_iff_failure envBadShaders).1,
   (shader_diagnostics_iff_failure envBadShaders).2.2.2.1 rfl,
   (shader_diagnostics_iff_failure env0).2.2.2.2.2.2.1 rfl rfl rfl,
   (shader_diagnostics_iff_failure env0).2.2.2.2.2.2.2 .triangle 2
     (mainTrace .triangle env0 2) 0 rfl rfl rfl⟩

/-- C2: the process exit status is exactly 0 when the program terminates via
a normal loop exit (window close or Escape), exactly -1 when window creation
fails, and exactly -1 when GPU function loading fails; the two fatal traces
are stated in full and end immediately after the logged message (plus
glfwTerminate in the window case), with no retry. -/
theorem exit_codes (v : Variant) (env : Env) (fuel : Nat) :
    (env.windowOk = false →
      runMain v env fuel =
        some (preWindowEvents v env
              ++ [.printOut "Failed to create GLFW window\n", .glfwTerminateEv], -1))
    ∧ (env.windowOk = true → env.gladOk = false →
      runMain v env fuel =
        some (preWindowEvents v env
              ++ [.makeContextCurrent, .setFramebufferSizeCallback, .gladLoad false]
              ++ [.printOut "Failed to initialize GLAD\n"], -1))
    ∧ (∀ (tr : List Event) (c : Int), runMain v env fuel = some (tr, c) →
        env.windowOk = true → env.gladOk = true → c = 0) := by
  refine ⟨?_, ?_, ?_⟩
  · intro h; simp [runMain, h]
  · intro hW hG; simp [runMain, hW, hG]
  · intro tr c hrun hW hG
    exact (run_ok_exit v env fuel tr c hrun hW hG).2

theorem exit_codes_witness :
    runMain .triangle envWinFail 0 =
      some (preWindowEvents .triangle envWinFail
            ++ [.printOut "Failed to create GLFW window\n", .glfwTerminateEv], -1)
    ∧ runMain .rectangle envGladFail 0 =
      some (preWindowEvents .rectangle envGladFail
            ++ [.makeContextCurrent, .setFramebufferSizeCallback, .gladLoad false]
            ++ [.printOut "Failed to initialize GLAD\n"], -1)
    ∧ (0 : Int) = 0 :=
  ⟨(exit_codes .triangle envWinFail 0).1 rfl,
   (exit_codes .rectangle envGladFail 0).2.1 rfl rfl,
   (exit_codes .triangle env0 2).2.2 (mainTrace .triangle env0 2) 0 rfl rfl rfl⟩

/-- C3: if Escape is observed pressed at iteration k and no close trigger
occurred before, the close flag is set within that same iteration
(setWindowShouldClose is in iteration k's events), the loop runs exactly
iterations 0..k and none after, and the run exits with status 0 with a trace
releasing the shader program, the vertex array object, the vertex buffer,
and in the rectangle variant the element buffer; moreover the loop can only
exit because some iteration triggered the close flag. -/
theorem escape_terminates_with_teardown (v : Variant) (env : Env) (k fuel : Nat)
    (hW : env.windowOk = true) (hG : env.gladOk = true)
    (hesc : env.escape k = true)
    (hprev : ∀ j, j < k → trigger env j = false)
    (hfuel : k + 1 ≤ fuel) :
    Event.setWindowShouldClose ∈ iterEvents v env k
    ∧ runLoop v env fuel 0 false =
        some (((List.range (k + 1)).map (fun j => iterEvents v env j)).flatten)
    ∧ (∃ tr, runMain v env fuel = some (tr, 0)
        ∧ Event.deleteProgram ∈ tr ∧ Event.deleteVertexArrays ∈ tr
        ∧ Event.deleteBuffers .vbo ∈ tr
        ∧ (v = .rectangle → Event.deleteBuffers .ebo ∈ tr))
    ∧ (∀ (env2 : Env) (fuel2 : Nat) (tr2 : List Event),
        runLoop v env2 fuel2 0 false = some tr2 → ∃ j, trigger env2 j = true) := by
  have hloop : runLoop v env fuel 0 false =
      some (((List.range (k + 1)).map (fun j => iterEvents v env j)).flatten) := by
    have h := runLoop_eq_of_trigger v env k 0 fuel
      (fun j hj => by simpa using hprev j hj)
      (by simp [trigger, hesc]) hfuel
    simpa using h
  refine ⟨?_, hloop, ?_, ?_⟩
  · simp [iterEvents, processInputEvents, hesc]
  · refine ⟨_, runMain_ok_shape v env fuel _ hW hG hloop, ?_, ?_, ?_, ?_⟩
    · cases v <;> simp [cleanupEvents, List.mem_append]
    · cases v <;> simp [cleanupEvents, List.mem_append]
    · cases v <;> simp [cleanupEvents, List.mem_append]
    · rintro rfl; simp [cleanupEvents, List.mem_append]
  · intro env2 fuel2 tr2 h2
    obtain ⟨j, _, hj⟩ := runLoop_some_trigger v env2 fuel2 0 tr2 h2
    exact ⟨j, hj⟩

theorem escape_terminates_with_teardown_witness :
    Event.setWindowShouldClose ∈ iterEvents .rectangle env0 0
    ∧ runLoop .rectangle env0 1 0 false =
        some (((List.range (0 + 1)).map (fun j => iterEvents .rectangle env0 j)).flatten)
    ∧ (∃ tr, runMain .rectangle env0 1 = some (tr, 0)
        ∧ Event.deleteProgram ∈ tr ∧ Event.deleteVertexArrays ∈ tr
        ∧ Event.deleteBuffers .vbo ∈ tr
        ∧ (Variant.rectangle = .rectangle → Event.deleteBuffers .ebo ∈ tr))
    ∧ (∀ (env2 : Env) (fuel2 : Nat) (tr2 : List Event),
        runLoop .rectangle env2 fuel2 0 false = some tr2 → ∃ j, trigger env2 j = true) :=
  escape_terminates_with_teardown .rectangle env0 0 1 rfl rfl rfl
    (fun j hj => absurd hj (Nat.not_lt_zero j)) (Nat.le_refl 1)

/-- C4: every render-loop iteration is exactly, in order: the Escape-key poll
(setting the close flag when Escape is observed), the clear to the fixed
background color, program activation, geometry-binding activation, exactly
one draw call (a non-indexed draw of 3 vertices in the triangle variant, an
indexed draw of 6 indices in the rectangle variant), frame presentation, and
event processing; the iteration contains exactly one draw call. -/
theorem iteration_order_one_draw (v : Variant) (env : Env) (i : Nat) :
    iterEvents v env i =
      [Event.getKey GLFW_KEY_ESCAPE (env.escape i)]
      ++ (if env.escape i then [Event.setWindowShouldClose] else [])
      ++ [Event.clearColor (1/10) (1/10) (3/20) 1, Event.clear, Event.useProgram,
          Event.bindVertexArray true, drawEvent v, Event.swapBuffers, Event.pollEvents]
    ∧ drawEvent .triangle = Event.drawArrays 0 3
    ∧ drawEvent .rectangle = Event.drawElements 6
    ∧ (iterEvents v env i).countP isDraw = 1 := by
  refine ⟨by simp [iterEvents, processInputEvents, frameEvents], rfl, rfl, ?_⟩
  cases h : env.escape i <;> cases v <;>
    simp [iterEvents, processInputEvents, frameEvents, isDraw, drawEvent, h]

/-- C5: the rectangle variant's four 2D vertex positions are the corners
(0.5,0.5), (0.5,-0.5), (-0.5,-0.5), (-0.5,0.5), its index array is
{0,1,3,1,2,3}, and the two triangles those indices select exactly cover the
quad spanned by the corners: a point lies in the quad iff it lies in at least
one of the two (closed) triangles, and the triangles' interiors are disjoint
(they meet only along the shared diagonal between vertices 1 and 3). -/
theorem rectangle_indexing_covers_quad :
    (vertex2D .rectangle 0 = (1/2, 1/2) ∧ vertex2D .rectangle 1 = (1/2, -(1/2)) ∧
     vertex2D .rectangle 2 = (-(1/2), -(1/2)) ∧ vertex2D .rectangle 3 = (-(1/2), 1/2)) ∧
    indices = [0, 1, 3, 1, 2, 3] ∧
    (∀ p : ℚ × ℚ, inQuad p ↔
      (inTriangle (rectTri 0).1 (rectTri 0).2.1 (rectTri 0).2.2 p ∨
       inTriangle (rectTri 1).1 (rectTri 1).2.1 (rectTri 1).2.2 p)) ∧
    (∀ p : ℚ × ℚ, ¬ (inTriangleInterior (rectTri 0).1 (rectTri 0).2.1 (rectTri 0).2.2 p ∧
       inTriangleInterior (rectTri 1).1 (rectTri 1).2.1 (rectTri 1).2.2 p)) := by
  refine ⟨⟨?_, ?_, ?_, ?_⟩, rfl, ?_, ?_⟩
  · norm_num [vertex2D, vertices]
  · norm_num [vertex2D, vertices]
  · norm_num [vertex2D, vertices]
  · norm_num [vertex2D, vertices]
  · intro p
    rw [rectTri_zero, rectTri_one]
    show inQuad p ↔ (inTriangle (1/2, 1/2) (1/2, -(1/2)) (-(1/2), 1/2) p ∨
      inTriangle (1/2, -(1/2)) (-(1/2), -(1/2)) (-(1/2), 1/2) p)
    rw [triA_char, triB_char]
    unfold inQuad
    constructor
    · rintro ⟨ha, hb, hc, hd⟩
      rcases le_or_lt 0 (p.1 + p.2) with h | h
      · exact Or.inl ⟨h, hb, hd⟩
      · exact Or.inr ⟨le_of_lt h, ha, hc⟩
    · rintro (⟨h1, h2, h3⟩ | ⟨h1, h2, h3⟩)
      · exact ⟨by linarith, h2, by linarith, h3⟩
      · exact ⟨h2, by linarith, h3, by linarith⟩
  · intro p hp
    rw [rectTri_zero, rectTri_one] at hp
    obtain ⟨hA, hB⟩ := hp
    have h1 := triA_interior_sum p hA
    have h2 := triB_interior_sum p hB
    linarith

/-- C6: for every resize event with new dimensions (W,H), the resize callback
sets the viewport rectangle to origin (0,0) with size (W,H), leaves the
vertex and index buffer contents unchanged, and retains no state: the
viewport it produces does not depend on the prior state. -/
theorem resize_sets_viewport_only (s s2 : GLState) (w h : Int) :
    (framebuffer_size_callback s w h).viewport = (0, 0, w, h)
    ∧ (framebuffer_size_callback s w h).arrayBufferData = s.arrayBufferData
    ∧ (framebuffer_size_callback s w h).elementBufferData = s.elementBufferData
    ∧ (framebuffer_size_callback s w h).viewport
        = (framebuffer_size_callback s2 w h).viewport :=
  ⟨rfl, rfl, rfl, rfl⟩

/-- C7: every info-log retrieval site in the shader phase passes a buffer
size of exactly 512 (the declared size of the infoLog buffer), each retrieval
writes at most 512 bytes and so stays within the buffer, the stored log
string has at most 512 characters, and each compile-failure diagnostic
includes that implementation-supplied log string. -/
theorem infolog_calls_bounded (env : Env) :
    infoLogBufSize = 512
    ∧ (∀ (k : ShaderKind) (bs : Nat),
        Event.getShaderInfoLog k bs ∈ shaderPhase env → bs = 512)
    ∧ (∀ bs : Nat, Event.getProgramInfoLog bs ∈ shaderPhase env → bs = 512)
    ∧ (∀ log : String, bytesWritten infoLogBufSize log ≤ 512)
    ∧ (∀ log : String, (writtenLog infoLogBufSize log).length ≤ 512)
    ∧ (env.vertexCompileOk = false →
        Event.printOut ("Vertex Shader Error:\n"
          ++ writtenLog infoLogBufSize env.vertexLog ++ "\n") ∈ shaderPhase env) := by
  refine ⟨rfl, ?_, ?_, ?_, ?_, ?_⟩
  · intro k bs h
    cases hv : env.vertexCompileOk <;> cases hf : env.fragmentCompileOk <;>
      cases hl : env.linkOk <;>
      simp [shaderPhase, vertexBlock, fragmentBlock, linkBlock, hv, hf, hl] at h <;>
      tauto
  · intro bs h
    cases hv : env.vertexCompileOk <;> cases hf : env.fragmentCompileOk <;>
      cases hl : env.linkOk <;>
      simp [shaderPhase, vertexBlock, fragmentBlock, linkBlock, hv, hf, hl] at h <;>
      tauto
  · intro log
    simp only [bytesWritten, infoLogBufSize]
    omega
  · intro log
    simp only [writtenLog, infoLogBufSize, List.length_asString, List.length_take]
    omega
  · intro h
    simp [shaderPhase, vertexBlock, vertexErrMsg, h]

theorem infolog_calls_bounded_witness :
    512 = 512
    ∧ bytesWritten infoLogBufSize "example log" ≤ 512
    ∧ (writtenLog infoLogBufSize "example log").length ≤ 512
    ∧ Event.printOut ("Vertex Shader Error:\n"
        ++ writtenLog infoLogBufSize envBadShaders.vertexLog ++ "\n")
        ∈ shaderPhase envBadShaders :=
  ⟨(infolog_calls_bounded envBadShaders).2.1 .vertex 512 (by decide),
   (infolog_calls_bounded env0).2.2.2.1 "example log",
   (infolog_calls_bounded env0).2.2.2.2.1 "example log",
   (infolog_calls_bounded envBadShaders).2.2.2.2.2 rfl⟩

/-- C8: the triangle program is deterministic: two runs with identical
environments produce identical traces; the frame-rendering commands after the
input poll are one fixed list, the same in every iteration of every run, with
the fixed clear color and the fixed draw of 3 vertices; and the vertex data
is a fixed constant. -/
theorem triangle_deterministic (env1 env2 : Env) (fuel i j : Nat)
    (h : env1 = env2) :
    runMain .triangle env1 fuel = runMain .triangle env2 fuel
    ∧ iterEvents .triangle env1 i = processInputEvents env1 i ++ frameEvents .triangle
    ∧ frameEvents .triangle =
        [Event.clearColor (1/10) (1/10) (3/20) 1, Event.clear, Event.useProgram,
         Event.bindVertexArray true, Event.drawArrays 0 3, Event.swapBuffers,
         Event.pollEvents]
    ∧ List.drop (processInputEvents env1 i).length (iterEvents .triangle env1 i)
        = List.drop (processInputEvents env2 j).length (iterEvents .triangle env2 j)
    ∧ vertices .triangle = [-(1/2), -(1/2), 0, 1/2, -(1/2), 0, 0, 1/2, 0] := by
  subst h
  refine ⟨rfl, rfl, rfl, ?_, rfl⟩
  simp [iterEvents, List.drop_left]

theorem triangle_deterministic_witness :
    runMain .triangle env0 2 = runMain .triangle env0 2
    ∧ iterEvents .triangle env0 0 = processInputEvents env0 0 ++ frameEvents .triangle
    ∧ frameEvents .triangle =
        [Event.clearColor (1/10) (1/10) (3/20) 1, Event.clear, Event.useProgram,
         Event.bindVertexArray true, Event.drawArrays 0 3, Event.swapBuffers,
         Event.pollEvents]
    ∧ List.drop (processInputEvents env0 0).length (iterEvents .triangle env0 0)
        = List.drop (processInputEvents env0 1).length (iterEvents .triangle env0 1)
    ∧ vertices .triangle = [-(1/2), -(1/2), 0, 1/2, -(1/2), 0, 0, 1/2, 0] :=
  triangle_deterministic env0 env0 2 0 1 rfl

/-- C9: the two fatal paths tear down differently: on window-creation failure
the trace ends with glfwTerminate before the -1 return, while on GLAD failure
the program returns -1 with no glfwTerminate call and no window destruction
anywhere in its trace, leaving the windowing library initialized and the
window alive at process exit. -/
theorem fatal_paths_teardown (v : Variant) (env : Env) (fuel : Nat) :
    (env.windowOk = false →
      ∃ tr, runMain v env fuel = some (tr, -1)
        ∧ tr.getLast? = some Event.glfwTerminateEv)
    ∧ (env.windowOk = true → env.gladOk = false →
      ∃ tr, runMain v env fuel = some (tr, -1)
        ∧ Event.glfwTerminateEv ∉ tr ∧ Event.destroyWindow ∉ tr) := by
  constructor
  · intro h
    refine ⟨preWindowEvents v env
      ++ [.printOut "Failed to create GLFW window\n", .glfwTerminateEv], ?_, ?_⟩
    · simp [runMain, h]
    · rfl
  · intro hW hG
    refine ⟨preWindowEvents v env
      ++ [.makeContextCurrent, .setFramebufferSizeCallback, .gladLoad false]
      ++ [.printOut "Failed to initialize GLAD\n"], ?_, ?_, ?_⟩
    · simp [runMain, hW, hG]
    · simp [preWindowEvents, List.mem_append]
    · simp [preWindowEvents, List.mem_append]

theorem fatal_paths_teardown_witness :
    (∃ tr, runMain .triangle envWinFail 0 = some (tr, -1)
        ∧ tr.getLast? = some Event.glfwTerminateEv)
    ∧ (∃ tr, runMain .triangle envGladFail 0 = some (tr, -1)
        ∧ Event.glfwTerminateEv ∉ tr ∧ Event.destroyWindow ∉ tr) :=
  ⟨(fatal_paths_teardown .triangle envWinFail 0).1 rfl,
   (fatal_paths_teardown .triangle envGladFail 0).2 rfl rfl⟩

/-- C10: the return value of glfwInit is discarded: two runs differing only
in the glfwInit outcome are identical, and every completed run's trace begins
with glfwInit followed unconditionally by the three window hints and the
window-creation attempt. -/
theorem glfwInit_result_discarded (v : Variant) (env : Env) (fuel : Nat) (b : Bool) :
    runMain v { env with glfwInitOk := b } fuel = runMain v env fuel
    ∧ (∀ (tr : List Event) (c : Int), runMain v env fuel = some (tr, c) →
        tr.take 5 = [Event.glfwInitEv,
          Event.windowHint GLFW_CONTEXT_VERSION_MAJOR 3,
          Event.windowHint GLFW_CONTEXT_VERSION_MINOR 3,
          Event.windowHint GLFW_OPENGL_PROFILE GLFW_OPENGL_CORE_PROFILE,
          Event.createWindow SCR_WIDTH SCR_HEIGHT (windowTitle v) env.windowOk]) := by
  constructor
  · have hL := runLoop_glfwInit_irrel v env b fuel 0 false
    simp only [runMain]
    rw [hL]
    rfl
  · intro tr c hrun
    by_cases hW : env.windowOk = false
    · rw [runMain] at hrun
      simp only [hW, if_true, Option.some.injEq, Prod.mk.injEq, reduceIte] at hrun
      obtain ⟨h1, _⟩ := hrun
      rw [← h1]
      simp [preWindowEvents]
    · rw [Bool.not_eq_false] at hW
      by_cases hG : env.gladOk = false
      · rw [runMain] at hrun
        simp only [hW, hG, Option.some.injEq, Prod.mk.injEq, reduceIte,
          Bool.true_eq_false] at hrun
        obtain ⟨h1, _⟩ := hrun
        rw [← h1]
        simp [preWindowEvents]
      · rw [Bool.not_eq_false] at hG
        rcases hl : runLoop v env fuel 0 false with _ | l
        · rw [runMain] at hrun
          simp [hW, hG, hl] at hrun
        · have hsh := runMain_ok_shape v env fuel l hW hG hl
          rw [hsh] at hrun
          simp only [Option.some.injEq, Prod.mk.injEq] at hrun
          obtain ⟨h1, _⟩ := hrun
          rw [← h1]
          simp [preWindowEvents]

theorem glfwInit_result_discarded_witness :
    runMain .triangle { env0 with glfwInitOk := false } 2 = runMain .triangle env0 2
    ∧ (mainTrace .triangle env0 2).take 5 = [Event.glfwInitEv,
        Event.windowHint GLFW_CONTEXT_VERSION_MAJOR 3,
        Event.windowHint GLFW_CONTEXT_VERSION_MINOR 3,
        Event.windowHint GLFW_OPENGL_PROFILE GLFW_OPENGL_CORE_PROFILE,
        Event.createWindow SCR_WIDTH SCR_HEIGHT (windowTitle .triangle) env0.windowOk] :=
  ⟨(glfwInit_result_discarded .triangle env0 2 false).1,
   (glfwInit_result_discarded .triangle env0 2 false).2 (mainTrace .triangle env0 2) 0 rfl⟩

end Renderer
